import Mathlib

/-!
Verification development for the WebCrawlerCompanion repository.

The definitions below are a shallow embedding of the element-selection
subsystem: the CSS-selector derivation functions, the selection-list
commit and attribute-toggle logic of the ElementSelector component, the
WebSocket broadcast hub, the client WebSocket channel, the touch/mouse
overlay interaction machine of the DOMViewer component, and the
in-memory storage backend. Each definition names the source file and
function it embeds.
-/

namespace WebCrawler

/-- ASCII model of the JavaScript method toLowerCase, applied character
by character. Tag names in the studied documents are ASCII. -/
def lowerString (s : String) : String := String.mk (s.data.map Char.toLower)

/-- Model of the JavaScript method trim: remove leading and trailing
whitespace. -/
def jsTrim (s : String) : String :=
  String.mk (((s.data.dropWhile Char.isWhitespace).reverse.dropWhile Char.isWhitespace).reverse)

/-!
## DOM element model

A DOM element as consumed by the selector-derivation functions: its tag
name (uppercase, as the DOM property tagName reports it), its id
attribute (the empty string when the element has no id, matching the
falsy check in the source), its class list in DOM order, and its 1-based
index among the children of its parent (every element considered by the
handlers is attached in a document, so a parentElement exists until the
HTML root is reached).
-/

structure DomElem where
  tagName : String
  id : String
  classList : List String
  nthIndex : Nat
deriving Repr, DecidableEq

/-- An element attached in a document, seen from the element upward:
the element itself followed by its ancestor chain up to, and excluding,
the root HTML element. The upward walk of generateSelector consumes
exactly this view. -/
def ElemChain : Type := List DomElem

/-- The class portion of one selector fragment, from
client/src/components/DOMViewer.tsx generateSelector (lines 180 to 188)
and the part_002 copy: join the class list, minus the marker classes,
with dots; append nothing when the filtered join is empty. The
truthiness guard on className in the source is subsumed: an empty class
list yields an empty join. -/
def classFragment (markers : List String) (classList : List String) : String :=
  let classes := String.intercalate "." (classList.filter (fun c => decide (c ∉ markers)))
  if classes = "" then "" else "." ++ classes

/-- One non-id fragment of the walk: lowercase tag name, filtered
classes, and the 1-based nth-child index (the source appends the index
whenever a parentElement exists, which is always the case for an
attached non-root element). -/
def selectorFragment (markers : List String) (e : DomElem) : String :=
  lowerString e.tagName ++ classFragment markers e.classList
    ++ ":nth-child(" ++ toString e.nthIndex ++ ")"

/-- The fragment list built by the while loop of generateSelector in
client/src/components/DOMViewer.tsx (lines 166 to 203), innermost
first: a non-empty id short-circuits the walk with the single fragment
directly, otherwise the walk continues to the parent. -/
def selectorPath (markers : List String) : List DomElem → List String
  | [] => []
  | e :: rest =>
    if e.id ≠ "" then ["#" ++ e.id]
    else selectorFragment markers e :: selectorPath markers rest

/-- generateSelector of client/src/components/DOMViewer.tsx (and the
part_002 copy, which differs only in its marker-class list): the source
builds the path outermost first via unshift and joins with the child
combinator; here the innermost-first path is reversed before joining. -/
def generateSelectorWalk (markers : List String) (chain : List DomElem) : String :=
  String.intercalate " > " (selectorPath markers chain).reverse

/-- Marker classes filtered by generateSelector in
client/src/components/DOMViewer.tsx, line 183. -/
def domViewerMarkers : List String := ["highlighted", "selectable"]

/-- Marker classes filtered by generateSelector in part_002, line 214. -/
def part002Markers : List String := ["highlight-target", "selected-element", "selectable"]

/-- generateSelector of client/src/components/DOMViewer.tsx applied to
an attached element given with its ancestor chain. -/
def DOMViewer.generateSelector (chain : List DomElem) : String :=
  generateSelectorWalk domViewerMarkers chain

/-- generateSelector of part_002 (lines 199 to 233). -/
def Part002.generateSelector (chain : List DomElem) : String :=
  generateSelectorWalk part002Markers chain

/-- Marker classes filtered by generateSelector in part_003, line 159. -/
def part003Markers : List String :=
  ["highlight-target", "preview-element", "selected-element", "selectable"]

/-- generateSelector of part_003 (lines 153 to 163): a single-element
selector, no ancestor walk; a non-empty id is appended after the tag
name; otherwise the filtered class list is appended when the class list
is non-empty. -/
def Part003.generateSelector (e : DomElem) : String :=
  let selector := lowerString e.tagName
  if e.id ≠ "" then selector ++ "#" ++ e.id
  else if e.classList.length > 0 then
    selector ++ "." ++ String.intercalate "."
      (e.classList.filter (fun c => decide (c ∉ part003Markers)))
  else selector

/-- generateSelector of part_006 (lines 553 to 561): same shape as the
part_003 variant but with no filtering of the class list at all. -/
def Part006.generateSelector (e : DomElem) : String :=
  let selector := lowerString e.tagName
  if e.id ≠ "" then selector ++ "#" ++ e.id
  else if e.classList.length > 0 then
    selector ++ "." ++ String.intercalate "." e.classList
  else selector

/-!
## ElementSelector: selection list, commit and attribute toggling

From client/src/components/ElementSelector.tsx. A source element is the
DOM node found by querySelector at commit time: its attribute nodes in
DOM order (name and value pairs), its text content, and the outcome of
the instanceof-based media-type detection (kept abstract as an input,
since it depends on element classes the attribute map does not carry).
-/

structure SourceElem where
  attrs : List (String × String)
  textContent : String
  mediaKind : Option String
deriving Repr, DecidableEq

/-- getAttribute: the value of the named attribute node, none when the
element does not carry the attribute. -/
def getAttribute (e : SourceElem) (name : String) : Option String :=
  (e.attrs.find? (fun a => a.1 = name)).map (fun a => a.2)

/-- availableAttributes from the commit effect (ElementSelector.tsx
lines 81 to 90): every attribute name on the element except class and
style, with the synthetic text pseudo-attribute unshifted in front when
the trimmed text content is non-empty. -/
def availableAttributes (e : SourceElem) : List String :=
  let base := (e.attrs.map (fun a => a.1)).filter (fun a => decide (a ≠ "class" ∧ a ≠ "style"))
  if jsTrim e.textContent ≠ "" then "text" :: base else base

/-- extractedData from the commit effect (lines 104 to 118): text first
when non-empty, then each available non-text attribute whose value is a
non-empty string, in order. -/
def extractedData (e : SourceElem) : List (String × String) :=
  let textPart := if jsTrim e.textContent ≠ "" then [("text", jsTrim e.textContent)] else []
  textPart ++ (availableAttributes e).filterMap (fun attr =>
    if attr = "text" then none
    else match getAttribute e attr with
      | some v => if v = "" then none else some (attr, v)
      | none => none)

/-- The SelectedSelector record of ElementSelector.tsx (lines 35 to
41); extractedData is an insertion-ordered association list, standing
for the JavaScript object. -/
structure SelectedSelector where
  selector : String
  attributes : List String
  extractedData : List (String × String)
  mediaType : Option String
  availableAttributes : List String
deriving Repr, DecidableEq

/-- The record built by the commit effect (lines 120 to 127): the
attribute set is the key list of extractedData. -/
def mkSelectedSelector (sel : String) (e : SourceElem) : SelectedSelector :=
  { selector := sel
    attributes := (extractedData e).map (fun p => p.1)
    extractedData := extractedData e
    mediaType := e.mediaKind
    availableAttributes := availableAttributes e }

/-- The commit effect on the selection list (lines 69 to 130): when a
record with the same selector is already present the effect returns
early and the list is unchanged; otherwise the new record is appended. -/
def commitSelection (st : List SelectedSelector) (sel : String) (e : SourceElem)
    : List SelectedSelector :=
  if st.any (fun s => decide (s.selector = sel)) then st
  else st ++ [mkSelectedSelector sel e]

/-- Assignment on a JavaScript object modelled as an association list:
update the existing key in place, or append a new key. -/
def setValue (l : List (String × String)) (k v : String) : List (String × String) :=
  if l.any (fun p => decide (p.1 = k)) then
    l.map (fun p => if p.1 = k then (k, v) else p)
  else l ++ [(k, v)]

/-- handleAttributeToggle (ElementSelector.tsx lines 137 to 174; its argument is named attribute in the source, a
reserved word here): lookup models querySelector on the iframe document. For the record
whose selector is the current one, the attribute is removed when
present, or appended (whether or not the element carries it) when
absent; extractedData is updated accordingly, reading the value from
the element with an empty-string fallback. -/
def handleAttributeToggle (st : List SelectedSelector)
    (lookup : String → Option SourceElem) (currentSelector : String) (attrName : String)
    : List SelectedSelector :=
  st.map (fun s =>
    if s.selector = currentSelector then
      match lookup s.selector with
      | none => s
      | some element =>
        let value := if attrName = "text" then jsTrim element.textContent
          else (getAttribute element attrName).getD ""
        let newAttributes := if s.attributes.contains attrName
          then s.attributes.filter (fun a => decide (a ≠ attrName))
          else s.attributes ++ [attrName]
        let newData := if newAttributes.contains attrName
          then setValue s.extractedData attrName value
          else s.extractedData.filter (fun p => decide (p.1 ≠ attrName))
        { s with attributes := newAttributes, extractedData := newData }
    else s)

/-!
## BroadcastHub: the WebSocket message handler of part_000

The connection handler (part_000, lines 14 to 51). A server-side
connection carries the identity of its socket object (modelled by a
numeric id, standing for JavaScript reference identity) and its
transport readyState.
-/

inductive ReadyState where
  | CONNECTING
  | OPEN
  | CLOSING
  | CLOSED
deriving Repr, DecidableEq

structure ClientConn where
  connId : Nat
  readyState : ReadyState
deriving Repr, DecidableEq

/-- An inbound client frame after JSON parsing. attributes and data are
optional fields of the parsed object. -/
structure InMessage where
  type : String
  selector : String
  attributes : Option (List String)
  data : Option (List (String × String))
deriving Repr, DecidableEq

/-- A frame sent by the hub. The source serialises an object literal
with JSON.stringify; a field the literal does not mention is absent
from the frame, modelled here as none. -/
structure OutMessage where
  type : String
  selector : String
  attributes : Option (List String)
  data : Option (List (String × String))
deriving Repr, DecidableEq

/-- The message handler of part_000 (lines 17 to 51): on
SELECT_ELEMENT, send an ELEMENT_SELECTED frame with the inbound
selector and attributes to every client other than the sender whose
readyState is OPEN; on HIGHLIGHT_ELEMENT, likewise an
ELEMENT_HIGHLIGHTED frame carrying only the selector; any other type
sends nothing. The result lists the performed sends in order. -/
def handleMessage (clients : List ClientConn) (ws : ClientConn) (msg : InMessage)
    : List (ClientConn × OutMessage) :=
  if msg.type = "SELECT_ELEMENT" then
    (clients.filter (fun c =>
        decide (c.connId ≠ ws.connId ∧ c.readyState = ReadyState.OPEN))).map
      (fun c => (c, { type := "ELEMENT_SELECTED", selector := msg.selector,
                      attributes := msg.attributes, data := none }))
  else if msg.type = "HIGHLIGHT_ELEMENT" then
    (clients.filter (fun c =>
        decide (c.connId ≠ ws.connId ∧ c.readyState = ReadyState.OPEN))).map
      (fun c => (c, { type := "ELEMENT_HIGHLIGHTED", selector := msg.selector,
                      attributes := none, data := none }))
  else []

/-- The handler on a raw frame: a frame that fails to parse as JSON is
caught and sends nothing (part_000, lines 47 to 49). -/
def handleRawMessage (clients : List ClientConn) (ws : ClientConn) (parsed : Option InMessage)
    : List (ClientConn × OutMessage) :=
  match parsed with
  | none => []
  | some msg => handleMessage clients ws msg

/-!
## RealtimeChannel: the client WebSocket hook

From client/src/hooks/use-websocket.ts. The state records the
readyState of the current socket (none when no socket was ever
created), the frames actually handed to the transport, and how many
times connect constructed a new WebSocket.
-/

structure ChannelState where
  readyState : Option ReadyState
  transmitted : List String
  connectAttempts : Nat
deriving Repr, DecidableEq

/-- connect (use-websocket.ts lines 8 to 37): a no-op when the current
socket is already OPEN, otherwise a new WebSocket is constructed, whose
initial readyState is CONNECTING. -/
def connect (st : ChannelState) : ChannelState :=
  if st.readyState = some ReadyState.OPEN then st
  else { st with readyState := some ReadyState.CONNECTING,
                 connectAttempts := st.connectAttempts + 1 }

/-- send (use-websocket.ts lines 51 to 64): when no socket exists or
the socket is not OPEN, log a warning, call connect and return, the
frame being dropped; otherwise hand the serialised frame to the
transport. -/
def send (st : ChannelState) (frame : String) : ChannelState :=
  if st.readyState ≠ some ReadyState.OPEN then connect st
  else { st with transmitted := st.transmitted ++ [frame] }

/-- The onopen transport event (lines 18 to 24): the socket becomes
OPEN. -/
def onOpen (st : ChannelState) : ChannelState :=
  { st with readyState := some ReadyState.OPEN }

/-!
## MemStorage: the in-memory storage backend

From server/index.ts lines 111 to 156 (the storage document). The two
Maps are insertion-ordered association lists keyed by numeric id, as a
JavaScript Map is.
-/

structure ProxyConfigRec where
  id : Nat
  name : String
  proxies : List String
  rotationStrategy : String
deriving Repr, DecidableEq

structure InsertProxyConfig where
  name : String
  proxies : List String
  rotationStrategy : String
deriving Repr, DecidableEq

structure SelectorRec where
  id : Nat
  name : String
  selector : String
  attributes : List String
  parentSelector : Option String
  url : String
deriving Repr, DecidableEq

structure InsertSelector where
  name : String
  selector : String
  attributes : List String
  parentSelector : Option String
  url : String
deriving Repr, DecidableEq

/-- Map.set of a JavaScript Map on an association list: overwrite the
entry holding the key, or append a fresh entry. -/
def mapSet {α : Type} (m : List (Nat × α)) (k : Nat) (v : α) : List (Nat × α) :=
  if m.any (fun p => decide (p.1 = k)) then
    m.map (fun p => if p.1 = k then (k, v) else p)
  else m ++ [(k, v)]

structure MemStorage where
  proxyConfigs : List (Nat × ProxyConfigRec)
  selectors : List (Nat × SelectorRec)
  currentProxyId : Nat
  currentSelectorId : Nat
deriving Repr, DecidableEq

/-- The MemStorage constructor: empty maps, both counters at 1. -/
def MemStorage.init : MemStorage :=
  { proxyConfigs := [], selectors := [], currentProxyId := 1, currentSelectorId := 1 }

/-- createProxyConfig: take the current proxy id, post-increment it,
store the config extended with the id, return the stored record. -/
def createProxyConfig (st : MemStorage) (config : InsertProxyConfig)
    : MemStorage × ProxyConfigRec :=
  let id := st.currentProxyId
  let proxyConfig : ProxyConfigRec :=
    { id := id, name := config.name, proxies := config.proxies,
      rotationStrategy := config.rotationStrategy }
  ({ st with proxyConfigs := mapSet st.proxyConfigs id proxyConfig,
             currentProxyId := id + 1 }, proxyConfig)

/-- createSelector: take the current selector id, post-increment it,
store the selector extended with the id, return the stored record. -/
def createSelector (st : MemStorage) (s : InsertSelector) : MemStorage × SelectorRec :=
  let id := st.currentSelectorId
  let newSelector : SelectorRec :=
    { id := id, name := s.name, selector := s.selector, attributes := s.attributes,
      parentSelector := s.parentSelector, url := s.url }
  ({ st with selectors := mapSet st.selectors id newSelector,
             currentSelectorId := id + 1 }, newSelector)

/-- getProxyConfigs: the stored values in insertion order. -/
def getProxyConfigs (st : MemStorage) : List ProxyConfigRec :=
  st.proxyConfigs.map (fun p => p.2)

/-- getSelectors: the stored values in insertion order. -/
def getSelectors (st : MemStorage) : List SelectorRec :=
  st.selectors.map (fun p => p.2)

/-- The storage invariant: every stored id is below the corresponding
counter. It holds for the initial state and is preserved by both create
operations. -/
def StorageWF (st : MemStorage) : Prop :=
  (∀ p ∈ st.proxyConfigs, p.1 < st.currentProxyId) ∧
  (∀ p ∈ st.selectors, p.1 < st.currentSelectorId)

instance : DecidablePred StorageWF := fun st => by
  unfold StorageWF; infer_instance

/-!
## SelectionOverlay: the DOMViewer interaction machine of part_002

Event machine for the touch and mouse handlers of part_002 (lines 59 to
197) together with the select-mode toggle button (lines 246 to 264) and
the effect cleanup. An event target is an element id plus whether its
tag is HTML or BODY. Timers model window.setTimeout: each call
schedules an independent pending callback with a fresh numeric id and
its captured target; pressTimerRef holds only the most recently
returned id; clearTimeout cancels exactly the pending timer with the
given id. Commits record the selector strings handed to
onElementSelect, with deriv standing for generateSelector on the live
element.
-/

structure Target where
  elemId : Nat
  isRootTag : Bool
deriving Repr, DecidableEq

inductive OverlayEvent where
  | toggleSelectButton
  | toggleMultiSelect
  | mouseOver (t : Target)
  | mouseOut (t : Target)
  | click (t : Target)
  | touchStart (t : Target)
  | touchMove (t : Target)
  | touchEnd
  | timerFire (id : Nat)
deriving Repr, DecidableEq

structure OverlayState where
  isSelectMode : Bool
  isMultiSelect : Bool
  highlighted : List Nat
  selected : List Nat
  isPressing : Bool
  pressTarget : Option Target
  pressTimerId : Option Nat
  pendingTimers : List (Nat × Target)
  nextTimerId : Nat
  commits : List String
deriving Repr, DecidableEq

/-- classList.add: no duplicate entry is created. -/
def addClass (l : List Nat) (x : Nat) : List Nat :=
  if l.contains x then l else l ++ [x]

/-- classList.remove. -/
def removeClass (l : List Nat) (x : Nat) : List Nat :=
  l.filter (fun y => y ≠ x)

/-- clearTimeout on the stored timer id: cancels the pending timer with
that id and nothing else; a no-op on an already elapsed or cancelled
id, and skipped when no id was ever stored. -/
def cancelTimer (timers : List (Nat × Target)) (id : Option Nat) : List (Nat × Target) :=
  match id with
  | none => timers
  | some i => timers.filter (fun p => p.1 ≠ i)

/-- selectElement of part_002 (lines 59 to 81): ignore the root tags;
remove every highlight marker; outside multi-select mode also clear the
previous selection markers; mark the element selected; hand the derived
selector to onElementSelect. -/
def selectElement (deriv : Nat → String) (st : OverlayState) (t : Target) : OverlayState :=
  if t.isRootTag then st
  else
    let st1 := { st with highlighted := [] }
    let st2 := if st1.isMultiSelect then st1 else { st1 with selected := [] }
    { st2 with selected := addClass st2.selected t.elemId,
               commits := st2.commits ++ [deriv t.elemId] }

/-- One event of the part_002 machine. The toggle button flips
isSelectMode, resets isMultiSelect when turning the mode on, removes
every selected and highlight marker from the document, and (through the
effect cleanup that the dependency change triggers) clears the timer id
held in pressTimerRef. The handlers follow the source lines 83 to 165;
the timer callback (lines 124 to 128) commits its captured target when
pressTargetRef still points at it, with no select-mode check of its
own. -/
def overlayStep (deriv : Nat → String) (st : OverlayState) : OverlayEvent → OverlayState
  | OverlayEvent.toggleSelectButton =>
    { st with
      isSelectMode := !st.isSelectMode
      isMultiSelect := if !st.isSelectMode then false else st.isMultiSelect
      highlighted := []
      selected := []
      pendingTimers := cancelTimer st.pendingTimers st.pressTimerId }
  | OverlayEvent.toggleMultiSelect =>
    if !st.isSelectMode then st
    else { st with isMultiSelect := !st.isMultiSelect,
                   pendingTimers := cancelTimer st.pendingTimers st.pressTimerId }
  | OverlayEvent.mouseOver t =>
    if !st.isSelectMode || st.isPressing then st
    else if t.isRootTag then st
    else if st.selected.contains t.elemId then st
    else { st with highlighted := addClass st.highlighted t.elemId }
  | OverlayEvent.mouseOut t =>
    if !st.isSelectMode || st.isPressing then st
    else if st.selected.contains t.elemId then st
    else { st with highlighted := removeClass st.highlighted t.elemId }
  | OverlayEvent.click t =>
    if !st.isSelectMode then st else selectElement deriv st t
  | OverlayEvent.touchStart t =>
    if !st.isSelectMode then st
    else
      let st1 := { st with isPressing := true }
      if t.isRootTag then st1
      else
        let st2 := { st1 with pressTarget := some t }
        let st3 := if st2.selected.contains t.elemId then st2
                   else { st2 with highlighted := addClass st2.highlighted t.elemId }
        { st3 with pendingTimers := st3.pendingTimers ++ [(st3.nextTimerId, t)],
                   pressTimerId := some st3.nextTimerId,
                   nextTimerId := st3.nextTimerId + 1 }
  | OverlayEvent.touchMove t =>
    if !st.isSelectMode || !st.isPressing then st
    else
      let st1 := match st.pressTarget with
        | some p => if st.selected.contains p.elemId then st
                    else { st with highlighted := removeClass st.highlighted p.elemId }
        | none => st
      if t.isRootTag then st1
      else
        let st2 := { st1 with pressTarget := some t }
        if st2.selected.contains t.elemId then st2
        else { st2 with highlighted := addClass st2.highlighted t.elemId }
  | OverlayEvent.touchEnd =>
    if !st.isSelectMode then st
    else
      let st1 := { st with
        isPressing := false
        pendingTimers := cancelTimer st.pendingTimers st.pressTimerId }
      let st2 := match st1.pressTarget with
        | some p => if st1.selected.contains p.elemId then st1
                    else { st1 with highlighted := removeClass st1.highlighted p.elemId }
        | none => st1
      { st2 with pressTarget := none }
  | OverlayEvent.timerFire id =>
    match st.pendingTimers.find? (fun p => p.1 == id) with
    | none => st
    | some pt =>
      let st1 := { st with pendingTimers := st.pendingTimers.filter (fun p => p.1 ≠ id) }
      if st1.pressTarget = some pt.2 then selectElement deriv st1 pt.2 else st1

/-- Run a sequence of events. -/
def runOverlay (deriv : Nat → String) (st : OverlayState) (evs : List OverlayEvent)
    : OverlayState :=
  evs.foldl (overlayStep deriv) st

/-- The mount state of the part_002 component: selection mode off,
nothing marked, no press, no timer. Timer ids start at 1, as
window.setTimeout ids do. -/
def overlayInit : OverlayState :=
  { isSelectMode := false, isMultiSelect := false, highlighted := [], selected := [],
    isPressing := false, pressTarget := none, pressTimerId := none,
    pendingTimers := [], nextTimerId := 1, commits := [] }

/-!
## Theorems
-/

/-- Joining a one-element list leaves the element unchanged. -/
theorem intercalate_singleton (s x : String) : String.intercalate s [x] = x := rfl

/-- C1 (amended): for the walk-up derivation of
client/src/components/DOMViewer.tsx (and its part_002 copy, any marker
list), an element with a non-empty id yields exactly the fragment # id,
whatever its tag name, class list, position and ancestor chain. The
claim as stated fails for the part_003 variant, which prefixes the tag
name. -/
theorem C1_id_short_circuit (markers : List String) (e : DomElem) (chain : List DomElem)
    (h : e.id ≠ "") :
    generateSelectorWalk markers (e :: chain) = "#" ++ e.id := by
  unfold generateSelectorWalk selectorPath
  rw [if_pos h]
  exact intercalate_singleton _ _

/-- C1 witness: a depth-two element with id, class and tag, evaluated
concretely. -/
theorem C1_id_short_circuit_witness :
    ({ tagName := "DIV", id := "hero", classList := ["card"], nthIndex := 2 } : DomElem).id ≠ ""
    ∧ generateSelectorWalk domViewerMarkers
        [{ tagName := "DIV", id := "hero", classList := ["card"], nthIndex := 2 },
         { tagName := "BODY", id := "", classList := [], nthIndex := 1 }] = "#" ++ "hero" :=
  ⟨by decide,
   C1_id_short_circuit domViewerMarkers
     { tagName := "DIV", id := "hero", classList := ["card"], nthIndex := 2 }
     [{ tagName := "BODY", id := "", classList := [], nthIndex := 1 }] (by decide)⟩

/-- C1 counterexample: the part_003 derivation applied to a div with id
app returns div#app, not #app, so the claim as stated fails for that
cited derivation function. -/
theorem C1_counterexample :
    Part003.generateSelector { tagName := "DIV", id := "app", classList := [], nthIndex := 1 }
      = "div#app"
    ∧ "div#app" ≠ "#" ++ "app" := by decide

/-- C2 (amended): in the document
div id app with two p.lead children, committing the first p through the
DOMViewer.tsx derivation yields the selector
#app > p.lead:nth-child(1) — the id short-circuit combined with both
the class fragment and the positional fragment — and the committed
SelectionRecord has attribute set containing exactly text with
extracted value Hi. -/
theorem C2_commit_first_p :
    DOMViewer.generateSelector
      [{ tagName := "P", id := "", classList := ["lead"], nthIndex := 1 },
       { tagName := "DIV", id := "app", classList := [], nthIndex := 1 },
       { tagName := "BODY", id := "", classList := [], nthIndex := 1 }]
      = "#app > p.lead:nth-child(1)"
    ∧ commitSelection [] "#app > p.lead:nth-child(1)"
        { attrs := [("class", "lead")], textContent := "Hi", mediaKind := none }
      = [{ selector := "#app > p.lead:nth-child(1)", attributes := ["text"],
           extractedData := [("text", "Hi")], mediaType := none,
           availableAttributes := ["text"] }] := by decide

/-- C2 counterexample: the derived selector for the first p is neither
#app > p.lead nor p.lead:nth-child(1); the derivation mixes the class
policy and the positional policy in one fragment. -/
theorem C2_counterexample :
    DOMViewer.generateSelector
      [{ tagName := "P", id := "", classList := ["lead"], nthIndex := 1 },
       { tagName := "DIV", id := "app", classList := [], nthIndex := 1 },
       { tagName := "BODY", id := "", classList := [], nthIndex := 1 }]
      ≠ "#app > p.lead"
    ∧ DOMViewer.generateSelector
      [{ tagName := "P", id := "", classList := ["lead"], nthIndex := 1 },
       { tagName := "DIV", id := "app", classList := [], nthIndex := 1 },
       { tagName := "BODY", id := "", classList := [], nthIndex := 1 }]
      ≠ "p.lead:nth-child(1)" := by decide

/-- C6: the part_006 derivation does not filter the class list, so the
selected-element marker class applied by the part_002 overlay leaks
into the derived selector of an element carrying it. -/
theorem C6_marker_leak :
    Part006.generateSelector
      { tagName := "DIV", id := "", classList := ["card", "selected-element"], nthIndex := 1 }
      = "div.card.selected-element" := by decide

/-- C3: every send the hub performs in response to a received frame
goes to a connection other than the sender whose transport is OPEN; in
particular nothing is ever echoed back to the sender. -/
theorem C3_no_echo (clients : List ClientConn) (ws : ClientConn)
    (parsed : Option InMessage) (c : ClientConn) (f : OutMessage)
    (h : (c, f) ∈ handleRawMessage clients ws parsed) :
    c.connId ≠ ws.connId ∧ c.readyState = ReadyState.OPEN := by
  cases parsed with
  | none => simp [handleRawMessage] at h
  | some msg =>
    simp only [handleRawMessage, handleMessage] at h
    split at h
    · rcases List.mem_map.1 h with ⟨a, ha, heq⟩
      cases heq
      exact of_decide_eq_true (List.mem_filter.1 ha).2
    · split at h
      · rcases List.mem_map.1 h with ⟨a, ha, heq⟩
        cases heq
        exact of_decide_eq_true (List.mem_filter.1 ha).2
      · simp at h

/-- C3 witness: two open connections; the frame relayed for a
SELECT_ELEMENT message goes to the non-sender. -/
theorem C3_no_echo_witness :
    ((⟨1, ReadyState.OPEN⟩ : ClientConn),
      ({ type := "ELEMENT_SELECTED", selector := "#app", attributes := none,
         data := none } : OutMessage)) ∈
      handleRawMessage [⟨0, ReadyState.OPEN⟩, ⟨1, ReadyState.OPEN⟩] ⟨0, ReadyState.OPEN⟩
        (some { type := "SELECT_ELEMENT", selector := "#app", attributes := none, data := none })
    ∧ ((1 : Nat) ≠ 0 ∧ ReadyState.OPEN = ReadyState.OPEN) :=
  ⟨by decide,
   C3_no_echo [⟨0, ReadyState.OPEN⟩, ⟨1, ReadyState.OPEN⟩] ⟨0, ReadyState.OPEN⟩
     (some { type := "SELECT_ELEMENT", selector := "#app", attributes := none, data := none })
     ⟨1, ReadyState.OPEN⟩
     { type := "ELEMENT_SELECTED", selector := "#app", attributes := none, data := none }
     (by decide)⟩

/-- C4 (amended): every frame the hub relays carries the past-tense
type and the inbound selector; for SELECT_ELEMENT it also carries the
inbound attributes but never the inbound data field, and for
HIGHLIGHT_ELEMENT it carries neither attributes nor data. -/
theorem C4_relay_shape (clients : List ClientConn) (ws : ClientConn) (msg : InMessage)
    (c : ClientConn) (f : OutMessage)
    (h : (c, f) ∈ handleMessage clients ws msg) :
    (msg.type = "SELECT_ELEMENT" →
      f = { type := "ELEMENT_SELECTED", selector := msg.selector,
            attributes := msg.attributes, data := none })
    ∧ (msg.type = "HIGHLIGHT_ELEMENT" →
      f = { type := "ELEMENT_HIGHLIGHTED", selector := msg.selector,
            attributes := none, data := none }) := by
  simp only [handleMessage] at h
  split at h
  · rename_i hsel
    rcases List.mem_map.1 h with ⟨a, _, heq⟩
    cases heq
    constructor
    · intro _; rfl
    · intro hh
      rw [hsel] at hh
      exact absurd hh (by decide)
  · split at h
    · rename_i hhl
      rcases List.mem_map.1 h with ⟨a, _, heq⟩
      cases heq
      constructor
      · intro hh
        rw [hhl] at hh
        exact absurd hh (by decide)
      · intro _; rfl
    · simp at h

/-- C4 witness: a concrete SELECT_ELEMENT relay. -/
theorem C4_relay_shape_witness :
    ((⟨1, ReadyState.OPEN⟩ : ClientConn),
      ({ type := "ELEMENT_SELECTED", selector := "#app", attributes := some ["text"],
         data := none } : OutMessage)) ∈
      handleMessage [⟨0, ReadyState.OPEN⟩, ⟨1, ReadyState.OPEN⟩] ⟨0, ReadyState.OPEN⟩
        { type := "SELECT_ELEMENT", selector := "#app", attributes := some ["text"],
          data := some [("text", "Hi")] }
    ∧ (("SELECT_ELEMENT" : String) = "SELECT_ELEMENT" →
        ({ type := "ELEMENT_SELECTED", selector := "#app", attributes := some ["text"],
           data := none } : OutMessage)
        = { type := "ELEMENT_SELECTED", selector := "#app", attributes := some ["text"],
            data := none }) :=
  ⟨by decide,
   (C4_relay_shape [⟨0, ReadyState.OPEN⟩, ⟨1, ReadyState.OPEN⟩] ⟨0, ReadyState.OPEN⟩
     { type := "SELECT_ELEMENT", selector := "#app", attributes := some ["text"],
       data := some [("text", "Hi")] }
     ⟨1, ReadyState.OPEN⟩
     { type := "ELEMENT_SELECTED", selector := "#app", attributes := some ["text"],
       data := none }
     (by decide)).1⟩

/-- C4 counterexample: an inbound SELECT_ELEMENT frame carrying a data
field is relayed without it — the relayed frame does not carry the same
data as the inbound frame. -/
theorem C4_counterexample :
    (handleMessage [⟨0, ReadyState.OPEN⟩, ⟨1, ReadyState.OPEN⟩] ⟨0, ReadyState.OPEN⟩
        { type := "SELECT_ELEMENT", selector := "#app", attributes := some ["text"],
          data := some [("text", "Hi")] }).map (fun p => p.2.data)
      = [none]
    ∧ (some [("text", "Hi")] : Option (List (String × String))) ≠ none := by decide

/-- C5: on a selection list with pairwise distinct selectors, a commit
keeps the selectors pairwise distinct, and a second commit whose
derived selector equals the first one (in particular a double commit of
the same element, whose derivation is deterministic) leaves the list
unchanged. -/
theorem C5_duplicate_commit (st : List SelectedSelector) (sel : String) (e e2 : SourceElem)
    (h : (st.map (fun s => s.selector)).Nodup) :
    ((commitSelection st sel e).map (fun s => s.selector)).Nodup ∧
    commitSelection (commitSelection st sel e) sel e2 = commitSelection st sel e := by
  by_cases hany : st.any (fun s => decide (s.selector = sel)) = true
  · constructor
    · simpa [commitSelection, hany] using h
    · simp [commitSelection, hany]
  · rw [Bool.not_eq_true] at hany
    have hnotmem : sel ∉ st.map (fun s => s.selector) := by
      intro hmem
      rcases List.mem_map.1 hmem with ⟨s, hs, hsel⟩
      have hfalse := (List.any_eq_false.1 hany) s hs
      simp [hsel] at hfalse
    constructor
    · simp only [commitSelection, hany, Bool.false_eq_true, if_false, List.map_append]
      simp only [mkSelectedSelector, List.map_cons, List.map_nil]
      rw [List.nodup_append]
      exact ⟨h, List.nodup_singleton sel, by
        intro x hx hmem
        rcases List.mem_singleton.1 hmem with rfl
        exact hnotmem hx⟩
    · simp [commitSelection, hany, List.any_append, mkSelectedSelector]

/-- C5 witness: a double commit on the empty list. -/
theorem C5_duplicate_commit_witness :
    (([] : List SelectedSelector).map (fun s => s.selector)).Nodup ∧
    (((commitSelection [] "p" { attrs := [], textContent := "Hi", mediaKind := none }).map
        (fun s => s.selector)).Nodup ∧
      commitSelection
        (commitSelection [] "p" { attrs := [], textContent := "Hi", mediaKind := none })
        "p" { attrs := [], textContent := "Hi", mediaKind := none }
      = commitSelection [] "p" { attrs := [], textContent := "Hi", mediaKind := none }) :=
  ⟨by decide,
   C5_duplicate_commit [] "p" { attrs := [], textContent := "Hi", mediaKind := none }
     { attrs := [], textContent := "Hi", mediaKind := none } (by decide)⟩

/-- C7 (amended): at commit time, every name in the record's attribute
set is either the synthetic text pseudo-attribute or the name of an
attribute actually present on the source element. The claim as stated
fails for later toggling, which may add arbitrary attribute names. -/
theorem C7_commit_subset (sel : String) (e : SourceElem) (a : String)
    (h : a ∈ (mkSelectedSelector sel e).attributes) :
    a = "text" ∨ a ∈ e.attrs.map (fun p => p.1) := by
  simp only [mkSelectedSelector] at h
  rcases List.mem_map.1 h with ⟨pair, hpair, rfl⟩
  simp only [extractedData] at hpair
  rcases List.mem_append.1 hpair with h1 | h2
  · left
    split at h1
    · rcases List.mem_singleton.1 h1 with rfl; rfl
    · cases h1
  · right
    rcases List.mem_filterMap.1 h2 with ⟨attr, _, hg⟩
    by_cases ht : attr = "text"
    · rw [if_pos ht] at hg; cases hg
    · rw [if_neg ht] at hg
      cases hga : getAttribute e attr with
      | none => rw [hga] at hg; simp at hg
      | some v =>
        rw [hga] at hg
        change (if v = "" then none else some (attr, v)) = some pair at hg
        by_cases hv : v = ""
        · rw [if_pos hv] at hg; cases hg
        · rw [if_neg hv] at hg
          injection hg with hpe
          subst hpe
          unfold getAttribute at hga
          rcases Option.map_eq_some'.1 hga with ⟨q, hfind, hq2⟩
          have hp := List.find?_some hfind
          have hq1 : q.1 = attr := of_decide_eq_true hp
          exact List.mem_map.2 ⟨q, List.mem_of_find?_eq_some hfind, hq1⟩

/-- C7 witness: the record committed for a text-only element. -/
theorem C7_commit_subset_witness :
    ("text" ∈ (mkSelectedSelector "p"
        { attrs := [], textContent := "Hi", mediaKind := none }).attributes)
    ∧ ("text" = "text" ∨
        "text" ∈ ({ attrs := [], textContent := "Hi", mediaKind := none }
          : SourceElem).attrs.map (fun p => p.1)) :=
  ⟨by decide,
   C7_commit_subset "p" { attrs := [], textContent := "Hi", mediaKind := none } "text"
     (by decide)⟩

/-- C7 counterexample: toggling the href attribute on the record of an
element that carries no attributes at all still adds href to the
attribute set, although href was never observed on the element. -/
theorem C7_counterexample :
    (handleAttributeToggle
        [mkSelectedSelector "p" { attrs := [], textContent := "Hi", mediaKind := none }]
        (fun _ => some { attrs := [], textContent := "Hi", mediaKind := none })
        "p" "href").map (fun s => s.attributes)
      = [["text", "href"]]
    ∧ "href" ∉ ("text" ::
        ({ attrs := [], textContent := "Hi", mediaKind := none }
          : SourceElem).attrs.map (fun p => p.1)) := by decide

/-- C8: a sequence of send calls issued while the channel is not OPEN
transmits nothing (each call only triggers a reconnect attempt and
drops its frame, returning normally), leaves the channel still not
OPEN, performs one reconnect attempt per call, and even after the
channel subsequently reconnects the transmitted frames are exactly
those from before — nothing is queued or replayed. -/
theorem C8_send_disconnected (st : ChannelState) (frames : List String)
    (h : st.readyState ≠ some ReadyState.OPEN) :
    (frames.foldl send st).transmitted = st.transmitted ∧
    (frames.foldl send st).readyState ≠ some ReadyState.OPEN ∧
    (frames.foldl send st).connectAttempts = st.connectAttempts + frames.length ∧
    (onOpen (frames.foldl send st)).transmitted = st.transmitted := by
  induction frames generalizing st with
  | nil => exact ⟨rfl, h, rfl, rfl⟩
  | cons f fs ih =>
    have hsend : send st f =
        { st with
          readyState := some ReadyState.CONNECTING
          connectAttempts := st.connectAttempts + 1 } := by
      rw [send, if_pos h, connect, if_neg h]
    have hnext : ({ st with
        readyState := some ReadyState.CONNECTING
        connectAttempts := st.connectAttempts + 1 } : ChannelState).readyState
          ≠ some ReadyState.OPEN := by
      intro hc
      exact absurd (Option.some.inj hc) (by decide)
    have hih := ih _ hnext
    rw [List.foldl_cons, hsend]
    refine ⟨hih.1, hih.2.1, ?_, hih.2.2.2⟩
    rw [hih.2.2.1]
    simp [List.length_cons]
    omega

/-- C8 witness: three sends on a never-connected channel, followed by a
reconnect, transmit nothing, as in the spec scenario. -/
theorem C8_send_disconnected_witness :
    (({ readyState := none, transmitted := [], connectAttempts := 0 }
        : ChannelState).readyState ≠ some ReadyState.OPEN) ∧
    ((["a", "b", "c"].foldl send
        { readyState := none, transmitted := [], connectAttempts := 0 }).transmitted = [] ∧
     (["a", "b", "c"].foldl send
        { readyState := none, transmitted := [], connectAttempts := 0 }).readyState
        ≠ some ReadyState.OPEN ∧
     (["a", "b", "c"].foldl send
        { readyState := none, transmitted := [], connectAttempts := 0 }).connectAttempts
        = 0 + 3 ∧
     (onOpen (["a", "b", "c"].foldl send
        { readyState := none, transmitted := [], connectAttempts := 0 })).transmitted = []) :=
  ⟨by decide,
   C8_send_disconnected { readyState := none, transmitted := [], connectAttempts := 0 }
     ["a", "b", "c"] (by decide)⟩

/-- Inserting with a key fresh for the map appends a new entry. -/
theorem mapSet_fresh {α : Type} (m : List (Nat × α)) (k : Nat) (v : α)
    (h : ∀ p ∈ m, p.1 ≠ k) : mapSet m k v = m ++ [(k, v)] := by
  unfold mapSet
  rw [if_neg]
  intro hany
  rcases List.any_eq_true.1 hany with ⟨p, hp, hpk⟩
  exact h p hp (of_decide_eq_true hpk)

/-- C10: on a well-formed storage state (as the initial state is), each
create operation assigns an id strictly greater than every id assigned
before it in its table, appends the new record leaving every previously
stored entry unchanged, makes the list operation return all previous
records together with the new one, and preserves well-formedness. -/
theorem C10_storage_fresh_ids (st : MemStorage) (s : InsertSelector) (c : InsertProxyConfig)
    (h : StorageWF st) :
    (∀ p ∈ st.selectors, p.1 < (createSelector st s).2.id) ∧
    (createSelector st s).1.selectors
      = st.selectors ++ [((createSelector st s).2.id, (createSelector st s).2)] ∧
    getSelectors (createSelector st s).1 = getSelectors st ++ [(createSelector st s).2] ∧
    StorageWF (createSelector st s).1 ∧
    (∀ p ∈ st.proxyConfigs, p.1 < (createProxyConfig st c).2.id) ∧
    (createProxyConfig st c).1.proxyConfigs
      = st.proxyConfigs ++ [((createProxyConfig st c).2.id, (createProxyConfig st c).2)] ∧
    getProxyConfigs (createProxyConfig st c).1
      = getProxyConfigs st ++ [(createProxyConfig st c).2] ∧
    StorageWF (createProxyConfig st c).1 ∧
    StorageWF MemStorage.init := by
  obtain ⟨hp, hs⟩ := h
  have hsel : ∀ v : SelectorRec, mapSet st.selectors st.currentSelectorId v
      = st.selectors ++ [(st.currentSelectorId, v)] :=
    fun v => mapSet_fresh _ _ _ (fun p hmem => Nat.ne_of_lt (hs p hmem))
  have hpc : ∀ v : ProxyConfigRec, mapSet st.proxyConfigs st.currentProxyId v
      = st.proxyConfigs ++ [(st.currentProxyId, v)] :=
    fun v => mapSet_fresh _ _ _ (fun p hmem => Nat.ne_of_lt (hp p hmem))
  refine ⟨fun p hmem => hs p hmem, ?_, ?_, ?_, fun p hmem => hp p hmem, ?_, ?_, ?_, ?_⟩
  · simp only [createSelector]
    exact hsel _
  · simp [getSelectors, createSelector, hsel]
  · constructor
    · intro p hmem
      simpa [createSelector] using hp p hmem
    · intro p hmem
      simp only [createSelector] at hmem ⊢
      rw [hsel] at hmem
      rcases List.mem_append.1 hmem with hold | hnew
      · exact Nat.lt_succ_of_lt (hs p hold)
      · rcases List.mem_singleton.1 hnew with rfl
        exact Nat.lt_succ_self _
  · simp only [createProxyConfig]
    exact hpc _
  · simp [getProxyConfigs, createProxyConfig, hpc]
  · constructor
    · intro p hmem
      simp only [createProxyConfig] at hmem ⊢
      rw [hpc] at hmem
      rcases List.mem_append.1 hmem with hold | hnew
      · exact Nat.lt_succ_of_lt (hp p hold)
      · rcases List.mem_singleton.1 hnew with rfl
        exact Nat.lt_succ_self _
    · intro p hmem
      simpa [createProxyConfig] using hs p hmem
  · exact (by decide : StorageWF MemStorage.init)

/-- C10 witness: the first create on the freshly constructed storage. -/
theorem C10_storage_fresh_ids_witness :
    StorageWF MemStorage.init ∧
    getSelectors (createSelector MemStorage.init
      { name := "Selection", selector := "#app", attributes := ["text"],
        parentSelector := none, url := "u" }).1
    = getSelectors MemStorage.init ++
      [(createSelector MemStorage.init
        { name := "Selection", selector := "#app", attributes := ["text"],
          parentSelector := none, url := "u" }).2] :=
  ⟨by decide,
   (C10_storage_fresh_ids MemStorage.init
     { name := "Selection", selector := "#app", attributes := ["text"],
       parentSelector := none, url := "u" }
     { name := "proxy", proxies := [], rotationStrategy := "round-robin" }
     (by decide)).2.2.1⟩

/-- C9: the failing run. Select mode is toggled on; two touchstart
events for the same element arrive (two fingers, no touchend between),
each scheduling a 500 ms hold timer while pressTimerRef keeps only the
second id; select mode is toggled off, which clears every marker and
cancels the timer held in pressTimerRef — but not the leaked first
timer. That timer then fires: its captured target still equals
pressTargetRef, so selectElement runs and a commit is produced after
the toggle-off, with selection mode still off. A real-time schedule
realising this run: touchstarts at 0 ms and 100 ms, toggle at 300 ms,
the leaked timer fires at 500 ms. -/
theorem C9_commit_after_toggle_off :
    ((runOverlay (fun n => "div:nth-child(" ++ toString n ++ ")") overlayInit
       [OverlayEvent.toggleSelectButton, OverlayEvent.touchStart ⟨1, false⟩,
        OverlayEvent.touchStart ⟨1, false⟩,
        OverlayEvent.toggleSelectButton]).isSelectMode = false
    ∧ (runOverlay (fun n => "div:nth-child(" ++ toString n ++ ")") overlayInit
       [OverlayEvent.toggleSelectButton, OverlayEvent.touchStart ⟨1, false⟩,
        OverlayEvent.touchStart ⟨1, false⟩,
        OverlayEvent.toggleSelectButton]).highlighted = []
    ∧ (runOverlay (fun n => "div:nth-child(" ++ toString n ++ ")") overlayInit
       [OverlayEvent.toggleSelectButton, OverlayEvent.touchStart ⟨1, false⟩,
        OverlayEvent.touchStart ⟨1, false⟩,
        OverlayEvent.toggleSelectButton]).selected = []
    ∧ (runOverlay (fun n => "div:nth-child(" ++ toString n ++ ")") overlayInit
       [OverlayEvent.toggleSelectButton, OverlayEvent.touchStart ⟨1, false⟩,
        OverlayEvent.touchStart ⟨1, false⟩,
        OverlayEvent.toggleSelectButton]).commits = []
    ∧ (runOverlay (fun n => "div:nth-child(" ++ toString n ++ ")") overlayInit
       [OverlayEvent.toggleSelectButton, OverlayEvent.touchStart ⟨1, false⟩,
        OverlayEvent.touchStart ⟨1, false⟩,
        OverlayEvent.toggleSelectButton]).pendingTimers
        = [(1, ⟨1, false⟩)]
    ∧ (runOverlay (fun n => "div:nth-child(" ++ toString n ++ ")") overlayInit
       [OverlayEvent.toggleSelectButton, OverlayEvent.touchStart ⟨1, false⟩,
        OverlayEvent.touchStart ⟨1, false⟩, OverlayEvent.toggleSelectButton,
        OverlayEvent.timerFire 1]).commits = ["div:nth-child(1)"]
    ∧ (runOverlay (fun n => "div:nth-child(" ++ toString n ++ ")") overlayInit
       [OverlayEvent.toggleSelectButton, OverlayEvent.touchStart ⟨1, false⟩,
        OverlayEvent.touchStart ⟨1, false⟩, OverlayEvent.toggleSelectButton,
        OverlayEvent.timerFire 1]).isSelectMode = false) := by decide

end WebCrawler
